import Mathlib

/-!
Verification of the FocusGuard content-classification and
distraction-notification pipeline.

The definitions below are a shallow embedding of the Python source:

* `fallback_classify`, `classify_content`, `get_detailed_analysis_class`
  embed `AdvancedContentClassifier._fallback_classify`,
  `AdvancedContentClassifier.classify_content` and the classification part
  of `AdvancedContentClassifier.get_detailed_analysis`
  (focusguard-app/main.py).
* `classify_with_patterns` embeds
  `SmartContentClassifier.classify_with_patterns`
  (home/ubuntu/focusguard-app/main.py).
* `TrackingState`, `send_distraction_notification`,
  `create_focus_session_tracking` and `monitor_activity_step` embed the
  per-user record of `user_distraction_tracking` and the state updates
  performed by `send_distraction_notification`, `create_focus_session`
  and `monitor_activity_realtime` (focusguard-app/main.py).

Conventions of the embedding:
* Python floats are modelled as rationals (`ℚ`); all the constants in the
  relevant code are decimal literals, so no rounding is involved.
* `datetime.utcnow()` is modelled by an explicit `now : ℚ` (seconds);
  `timedelta(seconds=s)` comparisons become rational comparisons.
  The several `utcnow()` calls made while one request is processed are
  modelled as a single instant.
* The external BERT sentence-embedding capability is modelled by a flag
  `embed_ok : Bool` (`false` = the call raises, the `except` branch runs)
  together with an arbitrary similarity function `sim : String → ℚ`
  giving the cosine similarity of the title with each category corpus.
* Python `x in s` on strings is substring containment (`substrOf`);
  `\b(w1|...|wn)\b` counting by `re.findall` over single alphabetic words
  is the number of word tokens that belong to the word set, where word
  characters are modelled as ASCII `[A-Za-z0-9_]`.
-/

/-- `needle` is a prefix of `hay` (over character lists). -/
def prefixChars : List Char → List Char → Bool
  | [], _ => true
  | _ :: _, [] => false
  | a :: as, b :: bs => a == b && prefixChars as bs

/-- `needle` occurs contiguously somewhere in `hay`. -/
def infixChars (needle : List Char) : List Char → Bool
  | [] => needle.isEmpty
  | c :: rest => prefixChars needle (c :: rest) || infixChars needle rest

/-- Substring containment: Python `needle in hay`. -/
def substrOf (needle hay : String) : Bool :=
  infixChars needle.toList hay.toList

/-- Python `any(k in s for k in kws)`. -/
def anyIn (kws : List String) (s : String) : Bool :=
  kws.any (fun k => substrOf k s)

/-- Python `str.lower()` restricted to ASCII letters (the keyword lists and
the concrete titles in this development are ASCII). -/
def strLower (s : String) : String := String.mk (s.data.map Char.toLower)

/-- Python `str.strip()`: remove leading and trailing whitespace. -/
def strTrim (s : String) : String :=
  String.mk (((s.data.dropWhile Char.isWhitespace).reverse.dropWhile
    Char.isWhitespace).reverse)

/-- The suffix after the first occurrence of `sep`, if `sep` occurs. -/
def afterFirst (sep : List Char) : List Char → Option (List Char)
  | [] => if sep.isEmpty then some [] else none
  | c :: rest =>
    if prefixChars sep (c :: rest) then some ((c :: rest).drop sep.length)
    else afterFirst sep rest

/-- `self.entertainment_keywords` of `_init_fallback_classifier`. -/
def entertainment_keywords : List String :=
  ["youtube", "netflix", "spotify", "instagram", "facebook", "twitter", "tiktok",
   "reddit", "twitch", "discord", "snapchat", "pinterest", "tumblr", "vine",
   "game", "gaming", "play", "movie", "music", "video", "stream", "live",
   "entertainment", "fun", "funny", "meme", "joke", "comedy", "drama",
   "reality", "show", "series", "episode", "season", "trailer", "preview"]

/-- `self.educational_keywords` of `_init_fallback_classifier`. -/
def educational_keywords : List String :=
  ["course", "tutorial", "learn", "study", "education", "academic", "university",
   "college", "school", "lecture", "lesson", "assignment", "homework", "exam",
   "test", "quiz", "research", "paper", "thesis", "dissertation", "documentation",
   "guide", "manual", "book", "textbook", "reference", "library", "scholar",
   "programming", "coding", "development", "engineering", "technology", "computer",
   "science", "math", "physics", "chemistry", "biology", "history", "geography",
   "language", "grammar", "vocabulary", "writing", "reading", "analysis",
   "algorithm", "data structure", "database", "web development", "mobile app",
   "machine learning", "ai", "artificial intelligence", "neural network",
   "statistics", "calculus", "algebra", "geometry", "trigonometry"]

/-- `self.productive_keywords` of `_init_fallback_classifier`. -/
def productive_keywords : List String :=
  ["work", "project", "task", "job", "business", "office", "meeting", "presentation",
   "report", "analysis", "data", "code", "programming", "development", "design",
   "planning", "strategy", "management", "admin", "dashboard", "tool", "software"]

/-- YouTube educational words checked against the tab content. -/
def youtube_edu_words : List String :=
  ["educational", "tutorial", "course", "learn", "study", "lecture"]

/-- YouTube entertainment words checked against the tab content. -/
def youtube_ent_words : List String :=
  ["music", "song", "movie", "game", "funny", "comedy", "entertainment",
   "video", "official", "ft.", "feat"]

/-- YouTube song/music patterns checked against the tab content. -/
def music_pattern_words : List String :=
  ["ft.", "feat", "official", "video", "song", "music", "album", "track",
   "remix", "cover"]

/-- YouTube movie/show patterns checked against the tab content. -/
def movie_pattern_words : List String :=
  ["full hd", "hd video", "movie", "film", "episode", "season", "series"]

/-- Entertainment sites checked against the tab content. -/
def ent_sites : List String :=
  ["movierulz", "movie", "film", "watch online", "full movie", "hd video",
   "video song"]

/-- Gaming sites checked against the tab content. -/
def gaming_sites : List String :=
  ["bc.game", "casino", "gambling", "slot games", "crypto casino", "game"]

/-- Educational sites checked against the tab content. -/
def edu_sites : List String :=
  ["stack overflow", "github", "documentation", "tutorial"]

/-- Work sites checked against the tab content. -/
def work_sites : List String :=
  ["gmail", "google docs", "sheets", "slides"]

/-- Development keywords checked against the tab content. -/
def chrome_dev_keywords : List String :=
  ["focusguard", "focus guard", "development", "project", "app", "application",
   "code", "programming", "software", "web app", "react", "python", "javascript",
   "html", "css", "api", "backend", "frontend", "database", "server", "git",
   "terminal", "console", "debug", "test", "build", "deploy", "config",
   "package.json", "requirements.txt", "docker", "kubernetes", "aws", "azure"]

/-- Project keywords checked against the whole lower-cased title. -/
def project_keywords : List String :=
  ["focusguard", "focus guard", "productivity", "timer", "dashboard", "stats",
   "monitor", "track", "session", "plan", "goal", "task", "work", "study"]

/-- The `productive_apps` whitelist checked against the whole title. -/
def productive_apps : List String :=
  ["focusguard", "focus guard", "productivity tracker", "focus timer",
   "pomodoro", "time tracker", "task manager", "project manager",
   "notion", "trello", "asana", "jira", "confluence", "slack",
   "teams", "zoom", "meet", "webex"]

/-- The `productivity_keywords` list checked against the whole title. -/
def productivity_keywords : List String :=
  ["productivity", "focus", "concentration", "work", "study", "learning",
   "development", "coding", "programming", "design", "analysis", "research",
   "documentation", "planning", "organization", "management", "collaboration"]

/-- Development file extensions used by `classify_content`. -/
def dev_extensions_bert : List String :=
  [".py", ".js", ".jsx", ".ts", ".tsx", ".html", ".css", ".java", ".cpp", ".c"]

/-- Development file extensions used by `_fallback_classify`. -/
def dev_extensions_fallback : List String :=
  [".py", ".js", ".jsx", ".ts", ".tsx", ".html", ".css"]

/-- Tab-content extraction: `" - ".join(title.split(" - ")[1:])` when the
title contains `" - "`, otherwise the title itself.  Joining the tail of
the split with the separator itself yields exactly the suffix after the
first separator occurrence. -/
def tab_content (title : String) : String :=
  match afterFirst " - ".data title.data with
  | some suffix => String.mk suffix
  | none => title

/-- The part of `_fallback_classify` after the Chrome block: the
Cursor/VS Code analysis and the three plain keyword checks. -/
def fallback_rest (title : String) : String × ℚ × Bool :=
  let tl := strLower title
  if substrOf "cursor" tl || substrOf "code" tl then
    if substrOf "cursor.exe" tl then ("work", 95/100, false)
    else if anyIn dev_extensions_fallback tl then ("work", 95/100, false)
    else ("work", 9/10, false)
  else if anyIn educational_keywords tl then ("educational", 8/10, false)
  else if anyIn productive_keywords tl then ("work", 8/10, false)
  else if anyIn entertainment_keywords tl then ("entertainment", 7/10, true)
  else ("neutral", 1/2, false)

/-- The YouTube analysis of the Chrome block of `_fallback_classify`. -/
def fallback_youtube (title : String) : String × ℚ × Bool :=
  let tabl := strLower (tab_content title)
  if anyIn youtube_edu_words tabl then ("educational", 9/10, false)
  else if anyIn youtube_ent_words tabl then ("entertainment", 8/10, true)
  else if anyIn music_pattern_words tabl then ("entertainment", 17/20, true)
  else if anyIn movie_pattern_words tabl then ("entertainment", 17/20, true)
  else ("streaming", 7/10, true)

/-- The Chrome block of `_fallback_classify`; falls through to
`fallback_rest` when no site or keyword check matches. -/
def fallback_chrome (title : String) : String × ℚ × Bool :=
  let tl := strLower title
  let tabl := strLower (tab_content title)
  if substrOf "new tab" tl then ("neutral", 9/10, false)
  else if substrOf "youtube" tl then fallback_youtube title
  else if anyIn ent_sites tabl then ("entertainment", 17/20, true)
  else if anyIn gaming_sites tabl then ("gaming", 9/10, true)
  else if anyIn edu_sites tabl then ("educational", 9/10, false)
  else if anyIn work_sites tabl then ("work", 9/10, false)
  else if anyIn chrome_dev_keywords tabl then ("work", 95/100, false)
  else if anyIn project_keywords tl then ("work", 9/10, false)
  else if anyIn productive_apps tl then ("work", 9/10, false)
  else if substrOf "focusguard" tl || substrOf "focus guard" tl then ("work", 95/100, false)
  else if anyIn productivity_keywords tl then ("work", 17/20, false)
  else fallback_rest title

/-- `AdvancedContentClassifier._fallback_classify`. -/
def fallback_classify (title : String) : String × ℚ × Bool :=
  if substrOf "chrome" (strLower title) then fallback_chrome title
  else fallback_rest title

/-- The insertion order of `self.category_embeddings`. -/
def embedding_categories : List String :=
  ["educational", "work", "entertainment", "social_media", "gaming", "streaming"]

/-- `self.category_weights.get(category, 1.0)`. -/
def category_weight (c : String) : ℚ :=
  if c = "educational" then 1
  else if c = "work" then 1
  else if c = "entertainment" then 8/10
  else if c = "social_media" then 9/10
  else if c = "gaming" then 7/10
  else if c = "streaming" then 8/10
  else if c = "neutral" then 1/2
  else 1

/-- `max(similarities, key=similarities.get)`: first entry with the
maximal value, scanning in insertion order. -/
def argmax_first : List (String × ℚ) → String × ℚ
  | [] => ("neutral", 1/2)
  | x :: xs => xs.foldl (fun b y => if y.2 > b.2 then y else b) x

/-- Categories that make `is_distraction` true after the vote. -/
def distracting_categories : List String :=
  ["entertainment", "social_media", "gaming", "streaming"]

/-- The two sequential hard overrides applied after the similarity vote:
educational and work are never distractions and get confidence boosted to
at least `0.8`. -/
def semantic_overrides (c : String) (conf0 : ℚ) : String × ℚ × Bool :=
  let d0 := distracting_categories.contains c
  let conf1 := if c = "educational" then max conf0 (8/10) else conf0
  let d1 := if c = "educational" then false else d0
  let conf2 := if c = "work" then max conf1 (8/10) else conf1
  let d2 := if c = "work" then false else d1
  (c, conf2, d2)

/-- `AdvancedContentClassifier.classify_content`.
`fallback_mode` is `self.fallback_mode`; `embed_ok = false` means the
embedding call raises, in which case the `except` handler runs (it returns
the fixed neutral triple because `fallback_mode` is false on that path). -/
def classify_content (fallback_mode embed_ok : Bool) (sim : String → ℚ)
    (title : String) : String × ℚ × Bool :=
  if fallback_mode then fallback_classify title
  else if title = "" ∨ (strTrim title).length < 3 then ("neutral", 1/2, false)
  else
    let tl := strLower title
    if substrOf "chrome" tl then fallback_classify title
    else if substrOf "cursor" tl || substrOf "code" tl || substrOf "visual studio" tl then
      if anyIn dev_extensions_bert tl then ("work", 95/100, false)
      else ("work", 9/10, false)
    else if embed_ok then
      let sims := embedding_categories.map (fun c => (c, sim c * category_weight c))
      let best := argmax_first sims
      semantic_overrides best.1 best.2
    else ("neutral", 1/2, false)

/-- The `(classification, confidence, is_distraction)` fields of
`AdvancedContentClassifier.get_detailed_analysis`. -/
def get_detailed_analysis_class (fallback_mode embed_ok : Bool)
    (sim : String → ℚ) (title : String) : String × ℚ × Bool :=
  if title = "" ∨ (strTrim title).length < 3 then ("neutral", 1/2, false)
  else classify_content fallback_mode embed_ok sim title

/-- Word characters of the regex `\b` model: ASCII `[A-Za-z0-9_]`. -/
def is_word_char (c : Char) : Bool := c.isAlphanum || c = '_'

/-- Splits a character list into maximal runs of word characters.  The
accumulator holds the current (reversed) run. -/
def word_tokens_aux : List Char → List Char → List String
  | [], acc => if acc.isEmpty then [] else [String.mk acc.reverse]
  | c :: cs, acc =>
    if is_word_char c then word_tokens_aux cs (c :: acc)
    else if acc.isEmpty then word_tokens_aux cs []
    else String.mk acc.reverse :: word_tokens_aux cs []

/-- The word tokens of a string. -/
def word_tokens (s : String) : List String := word_tokens_aux s.toList []

/-- `sum(len(re.findall(p, title_lower)) for p in patterns)` for a group of
patterns of the shape `\b(w1|...|wn)\b` whose alternatives are single words,
pairwise distinct across the group: the number of word tokens belonging to
the group's word set. -/
def pattern_matches (ws : List String) (title_lower : String) : Nat :=
  (word_tokens title_lower).countP (fun t => ws.contains t)

/-- The words of the four `entertainment_patterns` regexes of
`SmartContentClassifier.classify_with_patterns`. -/
def entertainment_pattern_words : List String :=
  ["youtube", "netflix", "spotify", "instagram", "facebook", "twitter",
   "tiktok", "reddit", "twitch", "discord",
   "game", "gaming", "play", "movie", "music", "video", "stream", "live",
   "entertainment", "fun", "funny", "meme", "joke", "comedy", "drama",
   "reality", "show", "series", "episode", "season", "trailer", "preview"]

/-- The words of the four `educational_patterns` regexes. -/
def educational_pattern_words : List String :=
  ["course", "tutorial", "learn", "study", "education", "academic",
   "university", "college", "school",
   "lecture", "lesson", "assignment", "homework", "exam", "test", "quiz",
   "research", "paper",
   "thesis", "dissertation", "documentation", "guide", "manual", "book",
   "textbook",
   "reference", "library", "scholar", "professor", "teacher", "instructor",
   "student"]

/-- The words of the five `productive_patterns` regexes. -/
def productive_pattern_words : List String :=
  ["work", "project", "task", "job", "business", "office", "meeting",
   "presentation", "report",
   "analysis", "data", "code", "programming", "development", "design",
   "planning", "strategy",
   "management", "admin", "dashboard", "tool", "software", "application",
   "system",
   "database", "server", "network", "security", "finance", "accounting",
   "marketing",
   "sales", "customer", "client", "product", "service", "quality",
   "efficiency"]

/-- `SmartContentClassifier.classify_with_patterns`. -/
def classify_with_patterns (title : String) : String × ℚ :=
  let tl := strLower title
  let e := pattern_matches entertainment_pattern_words tl
  let d := pattern_matches educational_pattern_words tl
  let p := pattern_matches productive_pattern_words tl
  if e > d ∧ e > p then ("entertainment", min (9/10) (1/2 + (e : ℚ) * (1/10)))
  else if d > e ∧ d > p then ("educational", min (9/10) (1/2 + (d : ℚ) * (1/10)))
  else if p > e ∧ p > d then ("productive", min (9/10) (1/2 + (p : ℚ) * (1/10)))
  else ("neutral", 1/2)

/-- One per-username record of the module-level
`user_distraction_tracking` dictionary. -/
structure TrackingState where
  count : Nat
  session_id : String
  last_reset : ℚ
  last_distraction_active : Bool
  last_distracting_window : String
  notification_sent_at : ℚ
  repeated_notification_count : Nat
  last_notification_time : ℚ
deriving Repr, DecidableEq

/-- `NOTIFICATION_THROTTLE_SECONDS = 2`. -/
def NOTIFICATION_THROTTLE_SECONDS : ℚ := 2

/-- `REPEATED_NOTIFICATION_INTERVAL = 2`. -/
def REPEATED_NOTIFICATION_INTERVAL : ℚ := 2

/-- `timedelta(hours=1)` in seconds. -/
def SESSION_RESET_SECONDS : ℚ := 3600

/-- A freshly initialized tracking record. `monitor_activity_realtime` and
`create_focus_session` initialize with `last_distracting_window = ""`;
`send_distraction_notification` initializes it with the incoming window
title. -/
def init_tracking (sid w : String) (now : ℚ) : TrackingState :=
  { count := 0
    session_id := sid
    last_reset := now
    last_distraction_active := false
    last_distracting_window := w
    notification_sent_at := now
    repeated_notification_count := 0
    last_notification_time := now }

/-- The counter-reset block of `send_distraction_notification`
("Reset counter if new session or after 1 hour"). -/
def reset_if_needed (st : TrackingState) (sid : String) (now : ℚ) : TrackingState :=
  if st.session_id ≠ sid ∨ now - st.last_reset > SESSION_RESET_SECONDS then
    { st with
      count := 0
      session_id := sid
      last_reset := now
      repeated_notification_count := 0
      last_notification_time := now }
  else st

/-- The fields of the emitted notification document that the claims are
about. -/
structure DistractionNotification where
  message : String
  sound_type : String
  distraction_count : Nat
  repeated_count : Nat
deriving Repr, DecidableEq

/-- The `count <= 2` message of `send_distraction_notification`. -/
def standard_message (w : String) : String :=
  "⚠️ Distracting activity detected: " ++ w

/-- The `count > 2` message of `send_distraction_notification`. -/
def escalated_message (w : String) : String :=
  "🚨 Multiple distractions detected! Stay focused on: " ++ w

/-- `send_distraction_notification`: lazy init of the tracking record,
session/1-hour reset, count increment, and selection of the message and
sound type.  `has_custom_audio` models `user.get("custom_audio_url")`
being set. -/
def send_distraction_notification (tr : Option TrackingState)
    (sid w : String) (has_custom_audio : Bool) (now : ℚ) :
    TrackingState × DistractionNotification :=
  let st0 := match tr with
    | none => init_tracking sid w now
    | some s => s
  let st1 := reset_if_needed st0 sid now
  let st2 := { st1 with count := st1.count + 1 }
  let msg := if st2.count ≤ 2 then standard_message w else escalated_message w
  let snd := if has_custom_audio then "custom" else "default"
  (st2, { message := msg
          sound_type := snd
          distraction_count := st2.count
          repeated_count := st2.repeated_notification_count })

/-- The tracking-record reset performed on a session switch: the fields
written by the "Reset distraction tracking for new session" block of
`create_focus_session`, identical to the "Check if this is a new session"
block of `monitor_activity_realtime`.  `last_distraction_active` is not
touched. -/
def session_sync (st : TrackingState) (sid : String) (now : ℚ) : TrackingState :=
  { st with
    count := 0
    session_id := sid
    last_reset := now
    repeated_notification_count := 0
    last_distracting_window := ""
    notification_sent_at := now
    last_notification_time := now }

/-- The tracking-record update of `create_focus_session`: reset an existing
record, or initialize a fresh one. -/
def create_focus_session_tracking (tr : Option TrackingState)
    (sid : String) (now : ℚ) : TrackingState :=
  match tr with
  | some st => session_sync st sid now
  | none => init_tracking sid "" now

/-- The `is_distraction` branch of `monitor_activity_realtime`: throttle
check, window-change test, and notification via
`send_distraction_notification` (which then marks the streak active). -/
def monitor_distraction_branch (st1 : TrackingState) (sid w : String)
    (cu : Bool) (now : ℚ) : TrackingState × Bool × Option DistractionNotification :=
  let window_changed := st1.last_distracting_window ≠ w
  if now - st1.last_notification_time > NOTIFICATION_THROTTLE_SECONDS then
    if window_changed then
      let st2 := { st1 with
                   last_distracting_window := w
                   repeated_notification_count := 0
                   notification_sent_at := now
                   last_notification_time := now }
      let r := send_distraction_notification (some st2) sid w cu now
      ({ r.1 with last_distraction_active := true }, true, some r.2)
    else
      if now - st1.last_notification_time > REPEATED_NOTIFICATION_INTERVAL then
        let st2 := { st1 with
                     repeated_notification_count := st1.repeated_notification_count + 1
                     notification_sent_at := now
                     last_notification_time := now }
        let r := send_distraction_notification (some st2) sid w cu now
        ({ r.1 with last_distraction_active := true }, true, some r.2)
      else (st1, false, none)
  else (st1, false, none)

/-- The non-distraction branch of `monitor_activity_realtime`: when a
streak was active, clear it. -/
def monitor_streak_break (st1 : TrackingState) (now : ℚ) :
    TrackingState × Bool × Option DistractionNotification :=
  if st1.last_distraction_active then
    ({ st1 with
       last_distraction_active := false
       repeated_notification_count := 0
       last_distracting_window := ""
       notification_sent_at := now
       last_notification_time := now },
     false, none)
  else (st1, false, none)

/-- The tracking/notification part of `monitor_activity_realtime` for one
incoming activity event: lazy init, session sync, and the distraction or
streak-break branch.  Returns the new tracking record, whether a
notification fired, and the notification that was emitted. -/
def monitor_activity_step (tr : Option TrackingState) (sid w : String)
    (is_distraction has_custom_audio : Bool) (now : ℚ) :
    TrackingState × Bool × Option DistractionNotification :=
  let st0 := match tr with
    | none => init_tracking sid "" now
    | some s => s
  let st1 := if st0.session_id ≠ sid then session_sync st0 sid now else st0
  if is_distraction then monitor_distraction_branch st1 sid w has_custom_audio now
  else monitor_streak_break st1 now

/-- The sequence of notifications produced by repeated calls of
`send_distraction_notification` at the given times. -/
def send_trace (st : TrackingState) (sid w : String) (cu : Bool) :
    List ℚ → List DistractionNotification
  | [] => []
  | t :: ts =>
    let r := send_distraction_notification (some st) sid w cu t
    r.2 :: send_trace r.1 sid w cu ts


/-- A classification result that respects the educational/work whitelist:
if the category is educational or work, it is not a distraction and the
confidence is at least `0.8`. -/
abbrev safe_for_whitelisted (r : String × ℚ × Bool) : Prop :=
  (r.1 = "educational" ∨ r.1 = "work") → r.2.2 = false ∧ (8/10 : ℚ) ≤ r.2.1

lemma ite_safe (c : Prop) [Decidable c] (a b : String × ℚ × Bool)
    (ha : safe_for_whitelisted a) (hb : safe_for_whitelisted b) :
    safe_for_whitelisted (if c then a else b) := by
  split_ifs <;> assumption

lemma fallback_rest_safe (title : String) :
    safe_for_whitelisted (fallback_rest title) := by
  unfold fallback_rest
  dsimp only
  repeat' apply ite_safe
  all_goals first
    | (intro h; simp at h; done)
    | (refine fun h => ⟨rfl, ?_⟩; norm_num)

lemma fallback_youtube_safe (title : String) :
    safe_for_whitelisted (fallback_youtube title) := by
  unfold fallback_youtube
  dsimp only
  repeat' apply ite_safe
  all_goals first
    | (intro h; simp at h; done)
    | (refine fun h => ⟨rfl, ?_⟩; norm_num)

lemma fallback_chrome_safe (title : String) :
    safe_for_whitelisted (fallback_chrome title) := by
  unfold fallback_chrome
  dsimp only
  repeat' apply ite_safe
  all_goals first
    | exact fallback_youtube_safe title
    | exact fallback_rest_safe title
    | (intro h; simp at h; done)
    | (refine fun h => ⟨rfl, ?_⟩; norm_num)

lemma fallback_classify_safe (title : String) :
    safe_for_whitelisted (fallback_classify title) := by
  unfold fallback_classify
  split_ifs
  · exact fallback_chrome_safe title
  · exact fallback_rest_safe title

lemma semantic_overrides_safe (c : String) (conf0 : ℚ) :
    safe_for_whitelisted (semantic_overrides c conf0) := by
  unfold semantic_overrides
  dsimp only
  by_cases h1 : c = "educational"
  · subst h1
    intro _
    simp [le_max_iff]
  · by_cases h2 : c = "work"
    · subst h2
      intro _
      simp [le_max_iff]
    · intro h
      exact absurd h (by simp [h1, h2])

lemma classify_content_safe (fallback_mode embed_ok : Bool)
    (sim : String → ℚ) (title : String) :
    safe_for_whitelisted (classify_content fallback_mode embed_ok sim title) := by
  unfold classify_content
  dsimp only
  refine ite_safe _ _ _ (fallback_classify_safe title) ?_
  refine ite_safe _ _ _ (fun h => by simp at h) ?_
  refine ite_safe _ _ _ (fallback_classify_safe title) ?_
  refine ite_safe _ _ _
    (ite_safe _ _ _ (fun h => ⟨rfl, by norm_num⟩) (fun h => ⟨rfl, by norm_num⟩)) ?_
  exact ite_safe _ _ _ (semantic_overrides_safe _ _) (fun h => by simp at h)

/-- C1: for every title (and any embedding similarities), if
`classify_content` resolves to category educational or work, the returned
`is_distraction` is `false` and the returned confidence is at least `0.8` —
the statistical vote can never flag these two categories. -/
theorem c1_educational_work_never_flagged (fallback_mode embed_ok : Bool)
    (sim : String → ℚ) (title : String)
    (h : (classify_content fallback_mode embed_ok sim title).1 = "educational" ∨
         (classify_content fallback_mode embed_ok sim title).1 = "work") :
    (classify_content fallback_mode embed_ok sim title).2.2 = false ∧
    (8/10 : ℚ) ≤ (classify_content fallback_mode embed_ok sim title).2.1 :=
  classify_content_safe fallback_mode embed_ok sim title h

/-- Witness for C1 at the concrete title `"homework"`, classified
educational by the keyword fallback. -/
theorem c1_educational_work_never_flagged_witness :
    (classify_content true false (fun _ => 0) "homework").2.2 = false ∧
    (8/10 : ℚ) ≤ (classify_content true false (fun _ => 0) "homework").2.1 :=
  c1_educational_work_never_flagged true false (fun _ => 0) "homework"
    (Or.inl rfl)

/-- C2 counterexample: the title `"Chrome - cursor code main.py movie"`
matches the development-tool pattern (it contains `"cursor"`, `"code"` and
the extension `".py"`), yet `classify_content` routes it through the
Chrome-tab branch first and classifies it `("entertainment", 0.85, true)`
in both BERT and fallback mode. -/
theorem c2_chrome_preempts_dev_override :
    substrOf "cursor" (strLower "Chrome - cursor code main.py movie") = true ∧
    substrOf "code" (strLower "Chrome - cursor code main.py movie") = true ∧
    substrOf ".py" (strLower "Chrome - cursor code main.py movie") = true ∧
    classify_content false true (fun _ => 0) "Chrome - cursor code main.py movie" =
      ("entertainment", 17/20, true) ∧
    classify_content true true (fun _ => 0) "Chrome - cursor code main.py movie" =
      ("entertainment", 17/20, true) :=
  ⟨rfl, rfl, rfl, rfl, rfl⟩

/-- C2 (amended): for every title of trimmed length at least 3 that does
not contain `"chrome"`, if it matches the development-tool pattern
(contains `"cursor"`, `"code"` or `"visual studio"`), `classify_content`
in BERT mode returns category work with confidence at least `0.9` and
`is_distraction = false`, regardless of the embedding signal. -/
theorem c2_dev_tool_override (embed_ok : Bool) (sim : String → ℚ) (title : String)
    (hshort : ¬(title = "" ∨ (strTrim title).length < 3))
    (hchrome : substrOf "chrome" (strLower title) = false)
    (hdev : (substrOf "cursor" (strLower title) || substrOf "code" (strLower title) ||
             substrOf "visual studio" (strLower title)) = true) :
    (classify_content false embed_ok sim title).1 = "work" ∧
    (9/10 : ℚ) ≤ (classify_content false embed_ok sim title).2.1 ∧
    (classify_content false embed_ok sim title).2.2 = false := by
  unfold classify_content
  dsimp only
  rw [if_neg (by simp : ¬((false : Bool) = true)), if_neg hshort,
    if_neg (by simp [hchrome] : ¬(substrOf "chrome" (strLower title) = true)),
    if_pos hdev]
  split_ifs
  · exact ⟨rfl, by norm_num, rfl⟩
  · exact ⟨rfl, by norm_num, rfl⟩

/-- Witness for the amended C2 at the concrete title
`"Cursor.exe - main.py"`. -/
theorem c2_dev_tool_override_witness :
    (classify_content false true (fun _ => 0) "Cursor.exe - main.py").1 = "work" ∧
    (9/10 : ℚ) ≤ (classify_content false true (fun _ => 0) "Cursor.exe - main.py").2.1 ∧
    (classify_content false true (fun _ => 0) "Cursor.exe - main.py").2.2 = false :=
  c2_dev_tool_override true (fun _ => 0) "Cursor.exe - main.py"
    (by decide) (by decide) (by decide)

/-- C5: when a distraction event arrives with a different session id, or
more than one hour after `last_reset`, the reset block of
`send_distraction_notification` clears `count` and
`repeated_notification_count` and updates `session_id`/`last_reset` to the
incoming values; and `create_focus_session` always leaves `count = 0`. -/
theorem c5_session_and_staleness_reset (st : TrackingState) (sid : String) (now : ℚ)
    (h : st.session_id ≠ sid ∨ now - st.last_reset > SESSION_RESET_SECONDS) :
    (reset_if_needed st sid now).count = 0 ∧
    (reset_if_needed st sid now).repeated_notification_count = 0 ∧
    (reset_if_needed st sid now).session_id = sid ∧
    (reset_if_needed st sid now).last_reset = now ∧
    ∀ (tr : Option TrackingState) (sid2 : String) (now2 : ℚ),
      (create_focus_session_tracking tr sid2 now2).count = 0 := by
  unfold reset_if_needed
  rw [if_pos h]
  refine ⟨rfl, rfl, rfl, rfl, ?_⟩
  intro tr sid2 now2
  cases tr <;> rfl

/-- Witness for C5: a record tracking session `"a"` receives an event of
session `"b"`. -/
theorem c5_session_and_staleness_reset_witness :
    (reset_if_needed (init_tracking "a" "" 0) "b" 1).count = 0 ∧
    (reset_if_needed (init_tracking "a" "" 0) "b" 1).repeated_notification_count = 0 ∧
    (reset_if_needed (init_tracking "a" "" 0) "b" 1).session_id = "b" ∧
    (reset_if_needed (init_tracking "a" "" 0) "b" 1).last_reset = 1 ∧
    ∀ (tr : Option TrackingState) (sid2 : String) (now2 : ℚ),
      (create_focus_session_tracking tr sid2 now2).count = 0 :=
  c5_session_and_staleness_reset (init_tracking "a" "" 0) "b" 1
    (Or.inl (by decide))

/-- C6 counterexample: `"ai"` has trimmed length 2, yet in fallback mode
`classify_content` skips the short-title check (the fallback branch runs
first) and the keyword `'ai'` makes it return `("educational", 0.8,
false)`, not `("neutral", 0.5, false)`. -/
theorem c6_short_title_fallback_counterexample :
    (strTrim "ai").length < 3 ∧
    classify_content true false (fun _ => 0) "ai" = ("educational", 8/10, false) ∧
    classify_content true true (fun _ => 0) "ai" = ("educational", 8/10, false) ∧
    (("educational" : String), (8/10 : ℚ), false) ≠
      (("neutral" : String), (1/2 : ℚ), false) :=
  ⟨by decide, rfl, rfl, by simp⟩

/-- C6 (amended): for every title of trimmed length below 3,
`get_detailed_analysis` and BERT-mode `classify_content` return exactly
`(neutral, 0.5, false)`; the fallback-mode `classify_content` entry point
does not perform the short-title check. -/
theorem c6_short_title_neutral (fallback_mode embed_ok : Bool) (sim : String → ℚ)
    (title : String) (h : title = "" ∨ (strTrim title).length < 3) :
    get_detailed_analysis_class fallback_mode embed_ok sim title = ("neutral", 1/2, false) ∧
    classify_content false embed_ok sim title = ("neutral", 1/2, false) := by
  constructor
  · unfold get_detailed_analysis_class
    rw [if_pos h]
  · unfold classify_content
    rw [if_neg (by simp : ¬((false : Bool) = true)), if_pos h]

/-- Witness for the amended C6 at the one-character title `"a"`. -/
theorem c6_short_title_neutral_witness :
    get_detailed_analysis_class true false (fun _ => 0) "a" = ("neutral", 1/2, false) ∧
    classify_content false false (fun _ => 0) "a" = ("neutral", 1/2, false) :=
  c6_short_title_neutral true false (fun _ => 0) "a" (Or.inr (by decide))

/-- C8 counterexample: for the title `"spotify music"`, a BERT-mode
classification whose embedding call raises returns the fixed value
`("neutral", 0.5, false)` from the `except` handler, not the keyword
fallback's result `("entertainment", 0.7, true)`. -/
theorem c8_embedding_failure_counterexample :
    classify_content false false (fun _ => 0) "spotify music" = ("neutral", 1/2, false) ∧
    fallback_classify "spotify music" = ("entertainment", 7/10, true) ∧
    (("neutral" : String), (1/2 : ℚ), false) ≠
      (("entertainment" : String), (7/10 : ℚ), true) :=
  ⟨rfl, rfl, by simp⟩

/-- C8 (amended): when the embedding capability raises during BERT-mode
classification (for a title that actually reaches the embedding step), the
`except` handler returns the fixed value `(neutral, 0.5, false)`; only in
fallback mode does `classify_content` return the pattern classifier's
result (which it then does on every call). -/
theorem c8_embedding_failure_fixed_neutral (sim : String → ℚ) (title : String)
    (hshort : ¬(title = "" ∨ (strTrim title).length < 3))
    (hchrome : substrOf "chrome" (strLower title) = false)
    (hdev : (substrOf "cursor" (strLower title) || substrOf "code" (strLower title) ||
             substrOf "visual studio" (strLower title)) = false) :
    classify_content false false sim title = ("neutral", 1/2, false) ∧
    ∀ (t : String) (ok : Bool), classify_content true ok sim t = fallback_classify t := by
  constructor
  · unfold classify_content
    dsimp only
    rw [if_neg (by simp : ¬((false : Bool) = true)), if_neg hshort,
      if_neg (by simp [hchrome] : ¬(substrOf "chrome" (strLower title) = true)),
      if_neg (by simp [hdev]),
      if_neg (by simp : ¬((false : Bool) = true))]
  · intro t ok
    unfold classify_content
    rw [if_pos (rfl : (true : Bool) = true)]

/-- Witness for the amended C8 at the concrete title `"spotify music"`. -/
theorem c8_embedding_failure_fixed_neutral_witness :
    classify_content false false (fun _ => 0) "spotify music" = ("neutral", 1/2, false) ∧
    ∀ (t : String) (ok : Bool),
      classify_content true ok (fun _ => 0) t = fallback_classify t :=
  c8_embedding_failure_fixed_neutral (fun _ => 0) "spotify music"
    (by decide) (by decide) (by decide)

/-- C7: `classify_with_patterns` lower-cases the title, counts the
word-pattern matches of the entertainment, educational and productive
groups, returns the group holding the strict maximum with confidence
`min(0.9, 0.5 + 0.1 * matches)`, returns `(neutral, 0.5)` on ties or
all-zero counts, and its confidence always lies in `[0.5, 0.9]`. -/
theorem c7_pattern_classifier (title : String) :
    ((pattern_matches entertainment_pattern_words (strLower title) >
        pattern_matches educational_pattern_words (strLower title) ∧
      pattern_matches entertainment_pattern_words (strLower title) >
        pattern_matches productive_pattern_words (strLower title)) →
      classify_with_patterns title =
        ("entertainment", min (9/10)
          (1/2 + (pattern_matches entertainment_pattern_words (strLower title) : ℚ) * (1/10)))) ∧
    ((pattern_matches educational_pattern_words (strLower title) >
        pattern_matches entertainment_pattern_words (strLower title) ∧
      pattern_matches educational_pattern_words (strLower title) >
        pattern_matches productive_pattern_words (strLower title)) →
      classify_with_patterns title =
        ("educational", min (9/10)
          (1/2 + (pattern_matches educational_pattern_words (strLower title) : ℚ) * (1/10)))) ∧
    ((pattern_matches productive_pattern_words (strLower title) >
        pattern_matches entertainment_pattern_words (strLower title) ∧
      pattern_matches productive_pattern_words (strLower title) >
        pattern_matches educational_pattern_words (strLower title)) →
      classify_with_patterns title =
        ("productive", min (9/10)
          (1/2 + (pattern_matches productive_pattern_words (strLower title) : ℚ) * (1/10)))) ∧
    ((¬(pattern_matches entertainment_pattern_words (strLower title) >
          pattern_matches educational_pattern_words (strLower title) ∧
        pattern_matches entertainment_pattern_words (strLower title) >
          pattern_matches productive_pattern_words (strLower title)) ∧
      ¬(pattern_matches educational_pattern_words (strLower title) >
          pattern_matches entertainment_pattern_words (strLower title) ∧
        pattern_matches educational_pattern_words (strLower title) >
          pattern_matches productive_pattern_words (strLower title)) ∧
      ¬(pattern_matches productive_pattern_words (strLower title) >
          pattern_matches entertainment_pattern_words (strLower title) ∧
        pattern_matches productive_pattern_words (strLower title) >
          pattern_matches educational_pattern_words (strLower title))) →
      classify_with_patterns title = ("neutral", 1/2)) ∧
    (1/2 : ℚ) ≤ (classify_with_patterns title).2 ∧
    (classify_with_patterns title).2 ≤ 9/10 := by
  have hconf : ∀ n : Nat, (1/2 : ℚ) ≤ min (9/10) (1/2 + (n : ℚ) * (1/10)) ∧
      min (9/10) ((1/2 : ℚ) + (n : ℚ) * (1/10)) ≤ 9/10 := by
    intro n
    constructor
    · refine le_min (by norm_num) ?_
      have : (0 : ℚ) ≤ (n : ℚ) * (1/10) := by positivity
      linarith
    · exact min_le_left _ _
  unfold classify_with_patterns
  dsimp only
  refine ⟨fun h => by rw [if_pos h], ?_, ?_, ?_, ?_, ?_⟩
  · intro h
    rw [if_neg (by omega), if_pos h]
  · intro h
    rw [if_neg (by omega), if_neg (by omega), if_pos h]
  · intro h
    rw [if_neg h.1, if_neg h.2.1, if_neg h.2.2]
  · split_ifs with h1 h2 h3
    · exact (hconf _).1
    · exact (hconf _).1
    · exact (hconf _).1
    · norm_num
  · split_ifs with h1 h2 h3
    · exact (hconf _).2
    · exact (hconf _).2
    · exact (hconf _).2
    · norm_num

/-- Witness for C7 at the concrete title `"music video fun"` (three
entertainment word matches, no educational or productive match). -/
theorem c7_pattern_classifier_witness :
    classify_with_patterns "music video fun" =
      ("entertainment", min (9/10)
        (1/2 + (pattern_matches entertainment_pattern_words
          (strLower "music video fun") : ℚ) * (1/10))) :=
  (c7_pattern_classifier "music video fun").1 (by decide)

lemma send_no_reset (st : TrackingState) (sid w : String) (cu : Bool) (now : ℚ)
    (hs : st.session_id = sid) (hr : now - st.last_reset ≤ SESSION_RESET_SECONDS) :
    send_distraction_notification (some st) sid w cu now =
      ({ st with count := st.count + 1 },
       ⟨(if st.count + 1 ≤ 2 then standard_message w else escalated_message w),
        (if cu then "custom" else "default"), st.count + 1,
        st.repeated_notification_count⟩) := by
  unfold send_distraction_notification reset_if_needed
  dsimp only
  rw [if_neg (by
    rw [not_or]
    exact ⟨by simp [hs], not_lt.mpr hr⟩)]

lemma send_keeps_session_id (st : TrackingState) (sid w : String) (cu : Bool)
    (now : ℚ) (hs : st.session_id = sid) :
    (send_distraction_notification (some st) sid w cu now).1.session_id = sid := by
  unfold send_distraction_notification reset_if_needed
  dsimp only
  split_ifs <;> simp [hs]

lemma send_keeps_notification_time (st : TrackingState) (sid w : String)
    (cu : Bool) (now : ℚ) (h : st.last_notification_time = now) :
    (send_distraction_notification (some st) sid w cu now).1.last_notification_time
      = now := by
  unfold send_distraction_notification reset_if_needed
  dsimp only
  split_ifs <;> simp [h]

lemma distraction_branch_suppressed (st1 : TrackingState) (sid w : String)
    (cu : Bool) (now : ℚ)
    (h : now - st1.last_notification_time ≤ NOTIFICATION_THROTTLE_SECONDS) :
    monitor_distraction_branch st1 sid w cu now = (st1, false, none) := by
  unfold monitor_distraction_branch
  dsimp only
  rw [if_neg (not_lt.mpr h)]

lemma distraction_branch_fired_fields (st1 : TrackingState) (sid w : String)
    (cu : Bool) (now : ℚ) (hsid : st1.session_id = sid) :
    (monitor_distraction_branch st1 sid w cu now).2.1 = true →
    (monitor_distraction_branch st1 sid w cu now).1.session_id = sid ∧
    (monitor_distraction_branch st1 sid w cu now).1.last_notification_time
      = now := by
  unfold monitor_distraction_branch
  dsimp only
  by_cases h2 : NOTIFICATION_THROTTLE_SECONDS < now - st1.last_notification_time
  · rw [if_pos h2]
    by_cases h3 : st1.last_distracting_window ≠ w
    · rw [if_pos h3]
      dsimp only
      intro _
      exact ⟨send_keeps_session_id _ _ _ _ _ hsid,
        send_keeps_notification_time _ _ _ _ _ rfl⟩
    · have h2r : REPEATED_NOTIFICATION_INTERVAL < now - st1.last_notification_time := by
        simpa [REPEATED_NOTIFICATION_INTERVAL, NOTIFICATION_THROTTLE_SECONDS] using h2
      rw [if_neg h3, if_pos h2r]
      dsimp only
      intro _
      exact ⟨send_keeps_session_id _ _ _ _ _ hsid,
        send_keeps_notification_time _ _ _ _ _ rfl⟩
  · rw [if_neg h2]
    intro hf
    exact absurd hf (by simp)

lemma monitor_suppressed (st : TrackingState) (sid w : String) (cu : Bool)
    (now : ℚ) (hs : st.session_id = sid)
    (h : now - st.last_notification_time ≤ NOTIFICATION_THROTTLE_SECONDS) :
    monitor_activity_step (some st) sid w true cu now = (st, false, none) := by
  unfold monitor_activity_step
  dsimp only
  rw [if_neg (by simp [hs] : ¬(st.session_id ≠ sid))]
  rw [if_pos (rfl : (true : Bool) = true)]
  exact distraction_branch_suppressed st sid w cu now h

lemma monitor_fired_fields (st : TrackingState) (sid w : String) (cu : Bool)
    (now : ℚ) :
    (monitor_activity_step (some st) sid w true cu now).2.1 = true →
    (monitor_activity_step (some st) sid w true cu now).1.session_id = sid ∧
    (monitor_activity_step (some st) sid w true cu now).1.last_notification_time
      = now := by
  unfold monitor_activity_step
  dsimp only
  by_cases h1 : st.session_id ≠ sid
  · rw [if_pos h1, if_pos (rfl : (true : Bool) = true)]
    rw [distraction_branch_suppressed (session_sync st sid now) sid w cu now (by
      show now - now ≤ NOTIFICATION_THROTTLE_SECONDS
      rw [sub_self]
      norm_num [NOTIFICATION_THROTTLE_SECONDS])]
    intro hf
    exact absurd hf (by simp)
  · rw [if_neg h1, if_pos (rfl : (true : Bool) = true)]
    exact distraction_branch_fired_fields st sid w cu now (not_not.mp h1)

/-- C3: a distracting event arriving at most `NOTIFICATION_THROTTLE_SECONDS`
(2 seconds) after the last notification is suppressed and leaves the whole
tracking record unchanged; and of two distracting events on the same window
arriving within the throttle interval of each other, at most one fires. -/
theorem c3_notification_throttle (st : TrackingState) (sid w : String) (cu : Bool)
    (t1 t2 : ℚ) (hs : st.session_id = sid) :
    (t1 - st.last_notification_time ≤ NOTIFICATION_THROTTLE_SECONDS →
      monitor_activity_step (some st) sid w true cu t1 = (st, false, none)) ∧
    (t2 - t1 ≤ NOTIFICATION_THROTTLE_SECONDS →
      (monitor_activity_step (some st) sid w true cu t1).2.1 = true →
      (monitor_activity_step (some (monitor_activity_step (some st) sid w true cu t1).1)
          sid w true cu t2).2.1 = false) := by
  constructor
  · exact fun h => monitor_suppressed st sid w cu t1 hs h
  · intro h2 hf
    obtain ⟨hsid1, hlnt1⟩ := monitor_fired_fields st sid w cu t1 hf
    have hsup := monitor_suppressed
      (monitor_activity_step (some st) sid w true cu t1).1 sid w cu t2 hsid1
      (by rw [hlnt1]; exact h2)
    rw [hsup]

/-- Witness for C3: a tracking record initialized at time 0 receives
distracting events at times 1 and 2. -/
theorem c3_notification_throttle_witness :
    monitor_activity_step (some (init_tracking "s" "" 0)) "s" "Netflix - Show"
      true false 1 = (init_tracking "s" "" 0, false, none) :=
  (c3_notification_throttle (init_tracking "s" "" 0) "s" "Netflix - Show" false 1 2
    rfl).1 (by norm_num [NOTIFICATION_THROTTLE_SECONDS, init_tracking])

lemma send_trace_get (sid w : String) (cu : Bool) :
    ∀ (ts : List ℚ) (st : TrackingState), st.session_id = sid →
    (∀ t ∈ ts, t - st.last_reset ≤ SESSION_RESET_SECONDS) →
    ∀ k, k < ts.length →
    (send_trace st sid w cu ts).get? k = some
      ⟨(if st.count + k + 1 ≤ 2 then standard_message w else escalated_message w),
       (if cu then "custom" else "default"), st.count + k + 1,
       st.repeated_notification_count⟩ := by
  intro ts
  induction ts with
  | nil =>
    intro st _ _ k hk
    exact absurd hk (by simp)
  | cons t rest ih =>
    intro st hs hr k hk
    unfold send_trace
    dsimp only
    rw [send_no_reset st sid w cu t hs (hr t (by simp))]
    dsimp only
    cases k with
    | zero => simp
    | succ k =>
      rw [List.get?_cons_succ]
      have hs2 : ({ st with count := st.count + 1 } : TrackingState).session_id = sid := hs
      have hr2 : ∀ t2 ∈ rest,
          t2 - ({ st with count := st.count + 1 } : TrackingState).last_reset ≤
            SESSION_RESET_SECONDS :=
        fun t2 ht2 => hr t2 (List.mem_cons_of_mem _ ht2)
      have hrec := ih { st with count := st.count + 1 } hs2 hr2 k (by simpa using hk)
      have harith : st.count + 1 + k + 1 = st.count + (k + 1) + 1 := by omega
      rw [show ({ st with count := st.count + 1 } : TrackingState).count = st.count + 1
        from rfl, harith] at hrec
      exact hrec

/-- C4: within one session without a reset, the `k`-th accepted distraction
notification carries `distraction_count = k` and uses the standard message
for the first two and the escalated message from the third onwards — i.e.
exactly when the post-increment count exceeds 2. -/
theorem c4_escalation_tiers (st : TrackingState) (sid w : String) (cu : Bool)
    (ts : List ℚ) (h0 : st.count = 0) (hs : st.session_id = sid)
    (hr : ∀ t ∈ ts, t - st.last_reset ≤ SESSION_RESET_SECONDS)
    (k : Nat) (hk : k < ts.length) :
    (send_trace st sid w cu ts).get? k = some
      ⟨(if k + 1 ≤ 2 then standard_message w else escalated_message w),
       (if cu then "custom" else "default"), k + 1,
       st.repeated_notification_count⟩ := by
  have h := send_trace_get sid w cu ts st hs hr k hk
  rw [h0] at h
  simpa using h

/-- Witness for C4: three accepted notifications at times 3, 6, 9 for a
record created at time 0; the third (index 2) is escalated and carries
count 3. -/
theorem c4_escalation_tiers_witness :
    (send_trace (init_tracking "s" "" 0) "s" "YouTube" false [3, 6, 9]).get? 2 =
      some ⟨escalated_message "YouTube", "default", 3, 0⟩ := by
  have h := c4_escalation_tiers (init_tracking "s" "" 0) "s" "YouTube" false
    [3, 6, 9] rfl rfl
    (by
      intro t ht
      simp only [List.mem_cons, List.not_mem_nil, or_false] at ht
      rcases ht with rfl | rfl | rfl <;>
        norm_num [init_tracking, SESSION_RESET_SECONDS])
    2 (by norm_num)
  simpa [init_tracking] using h

/-- C10: a tracking record freshly created or reset at time `t0` has
`last_notification_time = t0`, so a distracting event within the 2-second
throttle interval of that initialization fires no notification; a lazily
initialized record never notifies on its creating event. -/
theorem c10_fresh_record_throttle (sid w : String) (cu : Bool) (t0 t : ℚ)
    (h : t - t0 ≤ NOTIFICATION_THROTTLE_SECONDS) :
    (monitor_activity_step (some (init_tracking sid "" t0)) sid w true cu t).2.1
      = false ∧
    (monitor_activity_step (some (create_focus_session_tracking none sid t0))
      sid w true cu t).2.1 = false ∧
    (∀ st : TrackingState,
      (monitor_activity_step (some (create_focus_session_tracking (some st) sid t0))
        sid w true cu t).2.1 = false) ∧
    ∀ w2 : String, (monitor_activity_step none sid w2 true cu t).2.1 = false := by
  refine ⟨?_, ?_, ?_, ?_⟩
  · rw [monitor_suppressed _ sid w cu t rfl h]
  · rw [monitor_suppressed _ sid w cu t rfl h]
  · intro st
    rw [monitor_suppressed _ sid w cu t rfl h]
  · intro w2
    have heq : monitor_activity_step none sid w2 true cu t =
        monitor_activity_step (some (init_tracking sid "" t)) sid w2 true cu t := rfl
    rw [heq, monitor_suppressed _ sid w2 cu t rfl (by
      show t - (init_tracking sid "" t).last_notification_time ≤ _
      show t - t ≤ NOTIFICATION_THROTTLE_SECONDS
      rw [sub_self]
      norm_num [NOTIFICATION_THROTTLE_SECONDS])]

/-- Witness for C10: a record initialized at time 0 receives a distracting
event at time 1. -/
theorem c10_fresh_record_throttle_witness :
    (monitor_activity_step (some (init_tracking "s" "" 0)) "s" "Netflix - Show"
      true false 1).2.1 = false ∧
    (monitor_activity_step (some (create_focus_session_tracking none "s" 0))
      "s" "Netflix - Show" true false 1).2.1 = false ∧
    (∀ st : TrackingState,
      (monitor_activity_step (some (create_focus_session_tracking (some st) "s" 0))
        "s" "Netflix - Show" true false 1).2.1 = false) ∧
    ∀ w2 : String, (monitor_activity_step none "s" w2 true false 1).2.1 = false :=
  c10_fresh_record_throttle "s" "Netflix - Show" false 0 1
    (by norm_num [NOTIFICATION_THROTTLE_SECONDS])

/-- The tracker invariant: when no distraction streak is active, the
tracked distracting window is empty and the repeat counter is zero. -/
def tracking_inv (st : TrackingState) : Prop :=
  st.last_distraction_active = false →
    st.last_distracting_window = "" ∧ st.repeated_notification_count = 0

/-- Tracking records reachable through the real-time monitoring pipeline:
lazy initialization by `monitor_activity_realtime`, initialization or
reset by `create_focus_session`, and processing of activity events.
Deliberately NOT included is the lazy init performed by
`send_distraction_notification` itself (reached through the
window-monitor endpoints), which creates a record whose
`last_distracting_window` is the incoming window title while
`last_distraction_active` is false — the streak-clearing property fails
from such records (see the counterexample below). -/
inductive ReachableTracking : TrackingState → Prop
  | monitor_init (sid : String) (now : ℚ) :
      ReachableTracking (init_tracking sid "" now)
  | session_new (sid : String) (now : ℚ) :
      ReachableTracking (create_focus_session_tracking none sid now)
  | session_reset (st : TrackingState) (sid : String) (now : ℚ) :
      ReachableTracking st →
      ReachableTracking (create_focus_session_tracking (some st) sid now)
  | monitor (st : TrackingState) (sid w : String) (d cu : Bool) (now : ℚ) :
      ReachableTracking st →
      ReachableTracking (monitor_activity_step (some st) sid w d cu now).1

lemma tracking_inv_session_sync (st : TrackingState) (sid : String) (now : ℚ) :
    tracking_inv (session_sync st sid now) :=
  fun _ => ⟨rfl, rfl⟩

lemma tracking_inv_distraction_branch (st1 : TrackingState) (sid w : String)
    (cu : Bool) (now : ℚ) (hinv : tracking_inv st1) :
    tracking_inv (monitor_distraction_branch st1 sid w cu now).1 := by
  unfold monitor_distraction_branch
  dsimp only
  by_cases h2 : NOTIFICATION_THROTTLE_SECONDS < now - st1.last_notification_time
  · rw [if_pos h2]
    by_cases h3 : st1.last_distracting_window ≠ w
    · rw [if_pos h3]
      intro ha
      simp at ha
    · rw [if_neg h3]
      by_cases h4 : REPEATED_NOTIFICATION_INTERVAL < now - st1.last_notification_time
      · rw [if_pos h4]
        intro ha
        simp at ha
      · rw [if_neg h4]
        exact hinv
  · rw [if_neg h2]
    exact hinv

lemma tracking_inv_streak_break (st1 : TrackingState) (now : ℚ)
    (hinv : tracking_inv st1) :
    tracking_inv (monitor_streak_break st1 now).1 := by
  unfold monitor_streak_break
  by_cases ha : st1.last_distraction_active = true
  · rw [if_pos ha]
    exact fun _ => ⟨rfl, rfl⟩
  · rw [if_neg ha]
    exact hinv

lemma tracking_inv_monitor (st : TrackingState) (sid w : String) (d cu : Bool)
    (now : ℚ) (hinv : tracking_inv st) :
    tracking_inv (monitor_activity_step (some st) sid w d cu now).1 := by
  unfold monitor_activity_step
  dsimp only
  have h1 : tracking_inv (if st.session_id ≠ sid then session_sync st sid now else st) := by
    split_ifs
    · exact tracking_inv_session_sync st sid now
    · exact hinv
  cases d
  · rw [if_neg (by simp : ¬((false : Bool) = true))]
    exact tracking_inv_streak_break _ now h1
  · rw [if_pos (rfl : (true : Bool) = true)]
    exact tracking_inv_distraction_branch _ sid w cu now h1

lemma reachable_tracking_inv (st : TrackingState)
    (h : ReachableTracking st) : tracking_inv st := by
  induction h with
  | monitor_init sid now => exact fun _ => ⟨rfl, rfl⟩
  | session_new sid now => exact fun _ => ⟨rfl, rfl⟩
  | session_reset st2 sid now _ _ => exact fun _ => ⟨rfl, rfl⟩
  | monitor st2 sid w d cu now _ ih => exact tracking_inv_monitor st2 sid w d cu now ih

/-- C9 (amended): whenever an activity event classified with
`is_distraction = false` is processed for a user whose tracking record is
reachable through the real-time monitoring pipeline (or not yet created),
afterwards `last_distracting_window` is the empty string,
`repeated_notification_count` is 0 and `last_distraction_active` is
`false` — the distraction streak is broken. -/
theorem c9_non_distraction_clears_streak (tr : Option TrackingState)
    (sid w : String) (cu : Bool) (now : ℚ)
    (hre : ∀ st, tr = some st → ReachableTracking st) :
    (monitor_activity_step tr sid w false cu now).1.last_distracting_window = "" ∧
    (monitor_activity_step tr sid w false cu now).1.repeated_notification_count = 0 ∧
    (monitor_activity_step tr sid w false cu now).1.last_distraction_active = false := by
  cases tr with
  | none =>
    unfold monitor_activity_step
    dsimp only
    rw [if_neg (by simp [init_tracking] :
        ¬((init_tracking sid "" now).session_id ≠ sid))]
    rw [if_neg (by simp : ¬((false : Bool) = true))]
    unfold monitor_streak_break
    rw [if_neg (by simp [init_tracking] :
        ¬((init_tracking sid "" now).last_distraction_active = true))]
    exact ⟨rfl, rfl, rfl⟩
  | some st =>
    have hinv := reachable_tracking_inv st (hre st rfl)
    unfold monitor_activity_step
    dsimp only
    rw [if_neg (by simp : ¬((false : Bool) = true))]
    unfold monitor_streak_break
    by_cases h1 : st.session_id ≠ sid
    · rw [if_pos h1]
      by_cases ha : (session_sync st sid now).last_distraction_active = true
      · rw [if_pos ha]
        exact ⟨rfl, rfl, rfl⟩
      · rw [if_neg ha]
        exact ⟨rfl, rfl, by simpa using ha⟩
    · rw [if_neg h1]
      by_cases ha : st.last_distraction_active = true
      · rw [if_pos ha]
        exact ⟨rfl, rfl, rfl⟩
      · rw [if_neg ha]
        have ha2 : st.last_distraction_active = false := by simpa using ha
        obtain ⟨hw, hr⟩ := hinv ha2
        exact ⟨hw, hr, ha2⟩

/-- Witness for C9: a non-distracting event for a user with no tracking
record yet. -/
theorem c9_non_distraction_clears_streak_witness :
    (monitor_activity_step none "s" "Cursor.exe - main.py" false false 1).1.last_distracting_window = "" ∧
    (monitor_activity_step none "s" "Cursor.exe - main.py" false false 1).1.repeated_notification_count = 0 ∧
    (monitor_activity_step none "s" "Cursor.exe - main.py" false false 1).1.last_distraction_active = false :=
  c9_non_distraction_clears_streak none "s" "Cursor.exe - main.py" false 1
    (fun _ h => nomatch h)

/-- C9 counterexample: a tracking record lazily created by
`send_distraction_notification` itself (the path taken by the
window-monitor endpoints) starts with `last_distracting_window` set to the
incoming window title while `last_distraction_active` is false; a
subsequent non-distraction activity event then leaves
`last_distracting_window` non-empty, so the claim does not hold for every
tracking record the program can create. -/
theorem c9_send_lazy_init_counterexample :
    (send_distraction_notification none "s" "Netflix - Show" false 0).1.last_distraction_active
      = false ∧
    (send_distraction_notification none "s" "Netflix - Show" false 0).1.last_distracting_window
      = "Netflix - Show" ∧
    (monitor_activity_step
      (some (send_distraction_notification none "s" "Netflix - Show" false 0).1)
      "s" "Work - main.py" false false 1).1.last_distracting_window
      = "Netflix - Show" ∧
    ("Netflix - Show" : String) ≠ "" := by
  have h0 : send_distraction_notification none "s" "Netflix - Show" false 0 =
      send_distraction_notification
        (some (init_tracking "s" "Netflix - Show" 0)) "s" "Netflix - Show" false 0 := rfl
  have h1 := send_no_reset (init_tracking "s" "Netflix - Show" 0) "s" "Netflix - Show"
    false 0 rfl (by norm_num [init_tracking, SESSION_RESET_SECONDS])
  rw [h0, h1]
  refine ⟨rfl, rfl, ?_, by simp⟩
  unfold monitor_activity_step
  dsimp only
  rw [if_neg (by simp [init_tracking] :
      ¬(({ init_tracking "s" "Netflix - Show" 0 with
           count := (init_tracking "s" "Netflix - Show" 0).count + 1 }
          : TrackingState).session_id ≠ "s"))]
  rw [if_neg (by simp : ¬((false : Bool) = true))]
  unfold monitor_streak_break
  rw [if_neg (by simp [init_tracking] :
      ¬(({ init_tracking "s" "Netflix - Show" 0 with
           count := (init_tracking "s" "Netflix - Show" 0).count + 1 }
          : TrackingState).last_distraction_active = true))]
  rfl
